import Mathlib

/-!
# Verification of the `cor` gaze-analytics core

A shallow embedding, over exact rationals, of the analytics core of the
`cor` eye-tracking library (`src/gaze_detection.cpp`, `src/advanced_features.cpp`,
`src/heatmap.cpp`), together with theorems settling the frozen claims about it.

Modelling conventions:
* C `float`/`double` arithmetic is modelled exactly over `ℚ`; C `int` fields are `ℤ`.
* Comparisons of square roots against thresholds are replaced by their exact
  algebraic characterisations over `ℚ` (valid for the non-negative thresholds the
  code uses); each such spot is documented at its definition.
* External collaborators (the OpenCV camera, the eye detector, the Gaussian
  `exp` kernel values, linear-interpolation resizing, colour maps) are inputs or
  opaque parameters; the control flow around them is embedded faithfully.
-/

namespace Cor

/-- `EyeRegion` from `cor.h`: an eye bounding box (`int` geometry) with a
`float` confidence. -/
structure EyeRegion where
  x : ℤ
  y : ℤ
  width : ℤ
  height : ℤ
  confidence : ℚ
deriving DecidableEq, Repr

/-- `PupilData` from `cor.h`: pupil centre, radius and confidence (`float`). -/
structure PupilData where
  x : ℚ
  y : ℚ
  radius : ℚ
  confidence : ℚ
deriving DecidableEq, Repr

/-- `EyeDetectionResult` from `cor.h`: both eye boxes, both pupils, a validity
flag and the capture timestamp (`double`, seconds). -/
structure EyeDetectionResult where
  left_eye : EyeRegion
  right_eye : EyeRegion
  left_pupil : PupilData
  right_pupil : PupilData
  valid : Bool
  timestamp : ℚ
deriving DecidableEq, Repr

/-- `GazePoint` from `cor.h`: normalized screen coordinates, confidence and the
timestamp inherited from the source detection. -/
structure GazePoint where
  x : ℚ
  y : ℚ
  confidence : ℚ
  timestamp : ℚ
deriving DecidableEq, Repr

/-- The zero point `{0.0f, 0.0f, 0.0f, 0.0}` the C code uses as initializer. -/
def zeroGaze : GazePoint := ⟨0, 0, 0, 0⟩

instance : Inhabited GazePoint := ⟨zeroGaze⟩

/-- The static `gaze_config` of `gaze_detection.cpp` (all fields except
`max_gaze_angle`, whose role is played by `angleExceeds45` below; the source
default for it is 45 degrees). -/
structure GazeConfig where
  sensitivity_x : ℚ
  sensitivity_y : ℚ
  offset_x : ℚ
  offset_y : ℚ
  pupil_to_gaze_ratio_x : ℚ
  pupil_to_gaze_ratio_y : ℚ
  gaze_center_x : ℚ
  gaze_center_y : ℚ
  smoothing_factor : ℚ
  min_confidence_threshold : ℚ
deriving DecidableEq, Repr

/-- The source's static initializer
`{1.0f, 1.0f, 0.0f, 0.0f, 0.8f, 0.8f, 0.5f, 0.5f, 0.3f, 0.7f, 45.0f}`. -/
def defaultGazeConfig : GazeConfig :=
  { sensitivity_x := 1, sensitivity_y := 1, offset_x := 0, offset_y := 0,
    pupil_to_gaze_ratio_x := 4/5, pupil_to_gaze_ratio_y := 4/5,
    gaze_center_x := 1/2, gaze_center_y := 1/2,
    smoothing_factor := 3/10, min_confidence_threshold := 7/10 }

/-- The smoothing-anchor globals of `gaze_detection.cpp`:
`static GazePoint prev_gaze` and `static bool prev_gaze_valid`. -/
structure AnchorState where
  prev_gaze : GazePoint
  prev_gaze_valid : Bool
deriving DecidableEq, Repr

/-- The anchor state at process start: `prev_gaze = {0,0,0,0}`,
`prev_gaze_valid = false`. -/
def initialAnchor : AnchorState := ⟨zeroGaze, false⟩

/-- `std::max(0.0f, std::min(1.0f, v))`: clamp to `[0, 1]`. -/
def clamp01 (v : ℚ) : ℚ := max 0 (min 1 v)

/-- The extreme-angle test `fabs(atan2(gy, gx) * 180 / M_PI) > max_gaze_angle`
of `gaze_detection.cpp` line 74-75, at the source's default
`max_gaze_angle = 45` degrees.  Over the reals,
`|atan2 gy gx| > 45°` holds exactly when the vector `(gx, gy)` lies outside the
closed cone of half-angle 45° around the positive x-axis, i.e. exactly when
`gx < |gy|` (with `atan2 0 0 = 0` as in C).  This rational characterisation is
what is embedded. -/
def angleExceeds45 (gx gy : ℚ) : Bool := gx < |gy|

/-- Lines 43-44 of `gaze_detection.cpp`: average pupil position. -/
def avgPupilX (eye : EyeDetectionResult) : ℚ :=
  (eye.left_pupil.x + eye.right_pupil.x) / 2

def avgPupilY (eye : EyeDetectionResult) : ℚ :=
  (eye.left_pupil.y + eye.right_pupil.y) / 2

/-- Lines 47-50: average eye-box center. -/
def avgEyeX (eye : EyeDetectionResult) : ℚ :=
  (((eye.left_eye.x : ℚ) + (eye.left_eye.width : ℚ) / 2) +
   ((eye.right_eye.x : ℚ) + (eye.right_eye.width : ℚ) / 2)) / 2

def avgEyeY (eye : EyeDetectionResult) : ℚ :=
  (((eye.left_eye.y : ℚ) + (eye.left_eye.height : ℚ) / 2) +
   ((eye.right_eye.y : ℚ) + (eye.right_eye.height : ℚ) / 2)) / 2

/-- Lines 53-58: pupil displacement from the eye center, scaled by the
pupil-to-gaze ratio and the sensitivity. -/
def gazeDispX (cfg : GazeConfig) (eye : EyeDetectionResult) : ℚ :=
  (avgPupilX eye - avgEyeX eye) * cfg.pupil_to_gaze_ratio_x * cfg.sensitivity_x

def gazeDispY (cfg : GazeConfig) (eye : EyeDetectionResult) : ℚ :=
  (avgPupilY eye - avgEyeY eye) * cfg.pupil_to_gaze_ratio_y * cfg.sensitivity_y

/-- Lines 61-66: final pre-smoothing gaze coordinates, clamped to `[0,1]`. -/
def rawGazeX (cfg : GazeConfig) (eye : EyeDetectionResult) : ℚ :=
  clamp01 (cfg.gaze_center_x + gazeDispX cfg eye / 1000 + cfg.offset_x)

def rawGazeY (cfg : GazeConfig) (eye : EyeDetectionResult) : ℚ :=
  clamp01 (cfg.gaze_center_y + gazeDispY cfg eye / 1000 + cfg.offset_y)

/-- Lines 69-71: confidence as the mean of the average eye-box confidence and
the average pupil confidence. -/
def baseConfidence (eye : EyeDetectionResult) : ℚ :=
  ((eye.left_eye.confidence + eye.right_eye.confidence) / 2 +
   (eye.left_pupil.confidence + eye.right_pupil.confidence) / 2) / 2

/-- Lines 73-77: the confidence after the extreme-angle down-weighting. -/
def gazeConfidence (cfg : GazeConfig) (eye : EyeDetectionResult) : ℚ :=
  if angleExceeds45 (gazeDispX cfg eye) (gazeDispY cfg eye) then
    baseConfidence eye * (1/2)
  else baseConfidence eye

/-- `calculate_gaze_direction` from `gaze_detection.cpp` (lines 31-93), with the
smoothing-anchor globals passed and returned explicitly.  Returns the produced
`GazePoint` together with the updated anchor state: lines 80-84 apply the
exponential smoothing when an anchor exists and the confidence meets the
threshold, and lines 86-90 promote the point to new anchor exactly when its
confidence meets the threshold. -/
def calculate_gaze_direction (cfg : GazeConfig) (st : AnchorState)
    (eye : EyeDetectionResult) : GazePoint × AnchorState :=
  if !eye.valid then
    ({ x := 0, y := 0, confidence := 0, timestamp := eye.timestamp }, st)
  else
    let conf := gazeConfidence cfg eye
    let sx :=
      if st.prev_gaze_valid = true ∧ cfg.min_confidence_threshold ≤ conf then
        cfg.smoothing_factor * st.prev_gaze.x +
          (1 - cfg.smoothing_factor) * rawGazeX cfg eye
      else rawGazeX cfg eye
    let sy :=
      if st.prev_gaze_valid = true ∧ cfg.min_confidence_threshold ≤ conf then
        cfg.smoothing_factor * st.prev_gaze.y +
          (1 - cfg.smoothing_factor) * rawGazeY cfg eye
      else rawGazeY cfg eye
    let gp : GazePoint :=
      { x := sx, y := sy, confidence := conf, timestamp := eye.timestamp }
    (gp,
     if cfg.min_confidence_threshold ≤ conf then
       { prev_gaze := gp, prev_gaze_valid := true }
     else st)

/-! ## Event classifier (`advanced_features.cpp`) -/

/-- `AttentionRegion` from `advanced_features.cpp`: fixation centroid, duration
(ms), intensity, and sample count. -/
structure AttentionRegion where
  x : ℚ
  y : ℚ
  duration : ℚ
  intensity : ℚ
  visit_count : ℕ
deriving DecidableEq, Repr

/-- The static `fixation_params` of `advanced_features.cpp`:
`{25.0f, 100, 15.0f}` (position threshold, minimum duration ms, stability
threshold — the last is never read by `detect_fixations`). -/
structure FixationConfig where
  position_threshold : ℚ
  min_duration_ms : ℚ
deriving DecidableEq, Repr

/-- Source defaults `position_threshold = 25.0f`, `min_duration_ms = 100`. -/
def defaultFixationConfig : FixationConfig := ⟨25, 100⟩

/-- Squared Euclidean distance between two gaze points. -/
def distSq (p q : GazePoint) : ℚ := (q.x - p.x)^2 + (q.y - p.y)^2

/-- The run-extension test of `detect_fixations` (lines 111-114):
`sqrt(distSq) <= position_threshold / 1000`.  Since both sides are
non-negative for the non-negative thresholds the code configures, this is
exactly `distSq ≤ (position_threshold / 1000)^2`, which is what is embedded. -/
def withinFix (cfg : FixationConfig) (first q : GazePoint) : Bool :=
  distSq first q ≤ (cfg.position_threshold / 1000)^2

/-- The greedy run decomposition performed by the `while` loop of
`detect_fixations` (lines 99-147): starting at each unconsumed point, the run
extends while each subsequent point stays within the position threshold of the
run's FIRST point, and scanning resumes right after the run.  Fuel-indexed so
that the recursion is structural; `fixChunks` instantiates the fuel with the
list length, which always suffices. -/
def fixChunksF (cfg : FixationConfig) : ℕ → List GazePoint → List (List GazePoint)
  | 0, _ => []
  | _, [] => []
  | fuel + 1, p :: rest =>
      (p :: rest.takeWhile (withinFix cfg p)) ::
        fixChunksF cfg fuel (rest.dropWhile (withinFix cfg p))

/-- The runs scanned by `detect_fixations`, in scan order. -/
def fixChunks (cfg : FixationConfig) (pts : List GazePoint) : List (List GazePoint) :=
  fixChunksF cfg pts.length pts

/-- Duration of a run (lines 128): `(last.timestamp - first.timestamp) * 1000`. -/
def runDuration (c : List GazePoint) : ℚ :=
  ((c.getLastD zeroGaze).timestamp - (c.headD zeroGaze).timestamp) * 1000

/-- Centroid of a run (lines 126-127): arithmetic mean of member coordinates. -/
def runCentroid (c : List GazePoint) : ℚ × ℚ :=
  ((c.map GazePoint.x).sum / c.length, (c.map GazePoint.y).sum / c.length)

/-- Stability of a run (lines 131-137): mean distance of the members to the
centroid.  The float `sqrt` is abstracted by the parameter `sq`, applied to the
squared distance; no claim depends on its values. -/
def runStability (sq : ℚ → ℚ) (c : List GazePoint) : ℚ :=
  (c.map (fun p => sq (distSq p ⟨(runCentroid c).1, (runCentroid c).2, 0, 0⟩))).sum
    / c.length

/-- The `AttentionRegion` built from one multi-point run (lines 124-143). -/
def regionOfRun (sq : ℚ → ℚ) (c : List GazePoint) : AttentionRegion :=
  let d := runDuration c
  { x := (runCentroid c).1
    y := (runCentroid c).2
    duration := d
    intensity := d / (1 + runStability sq c * 1000)
    visit_count := c.length }

/-- `detect_fixations` from `advanced_features.cpp` (lines 92-150): decompose
the input into greedy runs; a run is emitted as an `AttentionRegion` when it
has more than one point (`end_idx > start_idx`) and its duration meets the
minimum (`duration >= min_duration_ms`).  `sq` abstracts the float `sqrt` used
only for the stability statistic. -/
def detect_fixations (sq : ℚ → ℚ) (cfg : FixationConfig)
    (pts : List GazePoint) : List AttentionRegion :=
  (fixChunks cfg pts).filterMap fun c =>
    if 2 ≤ c.length ∧ cfg.min_duration_ms ≤ runDuration c then
      some (regionOfRun sq c)
    else none

/-- The static `saccade_params` of `advanced_features.cpp`:
velocity threshold `300.0f`, acceleration threshold `500.0f` (the two duration
fields are never read by `detect_saccades`). -/
structure SaccadeConfig where
  velocity_threshold : ℚ
  acceleration_threshold : ℚ
deriving DecidableEq, Repr

/-- Source defaults `{300.0f, 500.0f}`. -/
def defaultSaccadeConfig : SaccadeConfig := ⟨300, 500⟩

/-- The per-triple saccade test of `detect_saccades` (lines 58-85) on the
triple `(prev, curr, next)`.  Square-root comparisons are embedded by their
exact algebraic characterisations over `ℚ`, valid for the positive thresholds
the code uses and `dt > 0`:
* `sqrt s / dt > T  ↔  (T*dt)^2 < s`;
* the acceleration test `|v2 - v1| > A * (dt1+dt2)/2` with `vi = sqrt aᵢ`
  (`aᵢ = sᵢ/dtᵢ²`) and bound `b = A*(dt1+dt2)/2 ≥ 0` is
  `|√a₁ - √a₂| > b ↔ 0 < a₁ + a₂ - b² ∧ 4*a₁*a₂ < (a₁ + a₂ - b²)^2`,
  since `|√a₁ - √a₂|² = a₁ + a₂ - 2√(a₁a₂)`.
Triples with non-positive elapsed time yield `false` (the loop `continue`s). -/
def saccadeFlag (cfg : SaccadeConfig) (prev curr next : GazePoint) : Bool :=
  let dt1 := curr.timestamp - prev.timestamp
  let dt2 := next.timestamp - curr.timestamp
  if dt1 ≤ 0 ∨ dt2 ≤ 0 then false
  else
    let s1 := distSq prev curr
    let s2 := distSq curr next
    let a1 := s1 / dt1^2
    let a2 := s2 / dt2^2
    let b := cfg.acceleration_threshold * ((dt1 + dt2) / 2)
    decide ((cfg.velocity_threshold * dt1)^2 < s1 ∨
            (cfg.velocity_threshold * dt2)^2 < s2 ∨
            (0 < a1 + a2 - b^2 ∧ 4 * a1 * a2 < (a1 + a2 - b^2)^2))

/-- The saccade criterion of the claim, stated as a proposition on the triple
`(prev, curr, next)`: both elapsed times positive AND (incoming velocity over
the threshold OR outgoing velocity over the threshold OR acceleration over
the threshold) — an OR of independent criteria.  The velocity and
acceleration comparisons are the same exact square-root-free rational
characterisations documented at `saccadeFlag`. -/
def saccadeSpec (cfg : SaccadeConfig) (prev curr next : GazePoint) : Prop :=
  let dt1 := curr.timestamp - prev.timestamp
  let dt2 := next.timestamp - curr.timestamp
  0 < dt1 ∧ 0 < dt2 ∧
    ((cfg.velocity_threshold * dt1)^2 < distSq prev curr ∨
     (cfg.velocity_threshold * dt2)^2 < distSq curr next ∨
     (0 < distSq prev curr / dt1^2 + distSq curr next / dt2^2 -
          (cfg.acceleration_threshold * ((dt1 + dt2) / 2))^2 ∧
      4 * (distSq prev curr / dt1^2) * (distSq curr next / dt2^2) <
        (distSq prev curr / dt1^2 + distSq curr next / dt2^2 -
         (cfg.acceleration_threshold * ((dt1 + dt2) / 2))^2)^2))

/-- The index loop of `detect_saccades` (lines 58-86), as a structural sliding
window: scanning the suffix `p :: c :: n :: rest` whose head sits at absolute
index `i`, the interior point `c` (index `i + 1`) is flagged when the triple
test fires. -/
def saccadeScan (cfg : SaccadeConfig) : ℕ → List GazePoint → List ℕ
  | i, p :: c :: n :: rest =>
      (if saccadeFlag cfg p c n then [i + 1] else []) ++
        saccadeScan cfg (i + 1) (c :: n :: rest)
  | _, _ => []

/-- `detect_saccades` from `advanced_features.cpp` (lines 53-89): fewer than 3
points yield an empty result; otherwise every interior index whose triple
passes the test is collected in order. -/
def detect_saccades (cfg : SaccadeConfig) (pts : List GazePoint) : List ℕ :=
  if pts.length < 3 then [] else saccadeScan cfg 0 pts

/-! ## Realtime session state (`advanced_features.cpp`) -/

/-- The `realtime_state` struct of `advanced_features.cpp` (lines 15-20) minus
the `VideoCapture` handle, which is an external resource: the initialized
flag, the rolling buffer `recent_gaze_points`, and `max_history_size`. -/
structure RealtimeState where
  is_initialized : Bool
  recent_gaze_points : List GazePoint
  max_history_size : ℕ
deriving DecidableEq, Repr

/-- The whole mutable state the streaming pipeline touches: the realtime
struct plus the smoothing-anchor globals of `gaze_detection.cpp`. -/
structure PipelineState where
  anchor : AnchorState
  rt : RealtimeState
deriving DecidableEq, Repr

/-- The static initializers: `realtime_state = {false, ..., {}, 100}` and the
anchor globals `prev_gaze = {0,0,0,0}`, `prev_gaze_valid = false`. -/
def initialPipeline : PipelineState :=
  { anchor := initialAnchor
    rt := { is_initialized := false, recent_gaze_points := [], max_history_size := 100 } }

/-- `init_realtime_processing` (lines 251-272), on the success path of the
external camera open: if already initialized, do nothing; otherwise clear
`recent_gaze_points` and set the initialized flag.  (The camera-open failure
path returns an error without touching any of this state.)  Note that the
smoothing-anchor globals are NOT touched. -/
def init_realtime_processing (st : PipelineState) : PipelineState :=
  if st.rt.is_initialized then st
  else { st with rt := { st.rt with recent_gaze_points := [], is_initialized := true } }

/-- `cleanup_realtime_processing` (lines 312-319): if initialized, release the
camera (external), clear `recent_gaze_points` and drop the initialized flag.
Note that the smoothing-anchor globals are NOT touched. -/
def cleanup_realtime_processing (st : PipelineState) : PipelineState :=
  if st.rt.is_initialized then
    { st with rt := { st.rt with recent_gaze_points := [], is_initialized := false } }
  else st

/-- `process_realtime_frame` (lines 275-304), with the externally detected
`EyeDetectionResult` (the output of `detect_eyes_in_frame` on the camera frame)
passed as input.  Uninitialized state or an invalid detection returns the zero
point and leaves all state unchanged; a valid detection runs the gaze
estimator, appends the point, and erases the front entry once the buffer
exceeds `max_history_size`.  (The camera-read failure path likewise returns the
zero point with no state change.) -/
def process_realtime_frame (cfg : GazeConfig) (st : PipelineState)
    (eye : EyeDetectionResult) : GazePoint × PipelineState :=
  if !st.rt.is_initialized then (zeroGaze, st)
  else if eye.valid then
    let r := calculate_gaze_direction cfg st.anchor eye
    let buf := st.rt.recent_gaze_points ++ [r.1]
    let buf' := if st.rt.max_history_size < buf.length then buf.drop 1 else buf
    (r.1, { anchor := r.2, rt := { st.rt with recent_gaze_points := buf' } })
  else (zeroGaze, st)

/-- `get_realtime_history` (lines 307-309): returns the rolling buffer. -/
def get_realtime_history (st : PipelineState) : List GazePoint :=
  st.rt.recent_gaze_points

/-- Feed a sequence of detections through `process_realtime_frame`, threading
the state. -/
def ingestAll (cfg : GazeConfig) (st : PipelineState)
    (eyes : List EyeDetectionResult) : PipelineState :=
  eyes.foldl (fun s e => (process_realtime_frame cfg s e).2) st

/-- The sequence of gaze points the estimator produces on a detection
sequence, threading the smoothing anchor. -/
def gazeOutputs (cfg : GazeConfig) : AnchorState → List EyeDetectionResult → List GazePoint
  | _, [] => []
  | st, e :: es =>
      (calculate_gaze_direction cfg st e).1 ::
        gazeOutputs cfg (calculate_gaze_direction cfg st e).2 es

/-! ## Density aggregator (`heatmap.cpp`) -/

/-- The C cast `(int)` applied to a `ℚ` value: truncation toward zero. -/
def truncQ (q : ℚ) : ℤ := if 0 ≤ q then ⌊q⌋ else ⌈q⌉

/-- `HeatmapConfig` from `cor.h` (the colour-scheme name is kept as a string;
colour mapping itself is external OpenCV code). -/
structure HeatmapConfigQ where
  color_scheme : String
  intensity_multiplier : ℚ
  blur_radius : ℤ
  resolution_factor : ℚ
  alpha_transparency : ℚ
deriving DecidableEq, Repr

/-- The static `heatmap_config` of `heatmap.cpp`:
`{"sequential_blue", 1.0f, 15, 1.0f, 0.6f}`. -/
def defaultHeatmapConfig : HeatmapConfigQ := ⟨"sequential_blue", 1, 15, 1, 3/5⟩

/-- A 2D image/field: integer dimensions (OpenCV `Mat` uses C `int`) and a
pixel function. -/
structure QImage where
  width : ℤ
  height : ℤ
  px : ℤ → ℤ → ℚ

/-- The per-point deposit step of `generate_heatmap`'s accumulation loop
(lines 87-130, minus the progress bar, which only prints): points with
confidence `< 0.5f` are skipped; the grid cell is
`((int)(x*heatmap_width), (int)(y*heatmap_height))`; out-of-bounds cells are
skipped; otherwise the kernel window `[-r, r] × [-r, r]` is added around the
cell, scaled by `confidence * intensity_multiplier`, clipping at the edges.
The nested loop is expressed pointwise: the cell `(hx, hy)` receives the
kernel entry `kernel (hy - y + r) (hx - x + r)` exactly when it lies both in
the window and in the grid.  `kernel` abstracts the Gaussian kernel values of
`create_gaussian_kernel` (transcendental `exp`); no claim depends on them. -/
def depositPoint (kernel : ℤ → ℤ → ℚ) (r hw hh : ℤ) (im : ℚ)
    (field : ℤ → ℤ → ℚ) (p : GazePoint) : ℤ → ℤ → ℚ :=
  if p.confidence < 1/2 then field
  else
    let x := truncQ (p.x * hw)
    let y := truncQ (p.y * hh)
    if x < 0 ∨ hw ≤ x ∨ y < 0 ∨ hh ≤ y then field
    else fun hx hy =>
      if x - r ≤ hx ∧ hx ≤ x + r ∧ y - r ≤ hy ∧ hy ≤ y + r ∧
         0 ≤ hx ∧ hx < hw ∧ 0 ≤ hy ∧ hy < hh then
        field hx hy + kernel (hy - y + r) (hx - x + r) * p.confidence * im
      else field hx hy

/-- All grid cells `(x, y)` of an `hw × hh` field, for the min/max scan. -/
def gridCells (hw hh : ℤ) : List (ℤ × ℤ) :=
  (List.range hh.toNat).flatMap fun y =>
    (List.range hw.toNat).map fun x => ((x : ℤ), (y : ℤ))

/-- `minMaxLoc` over the grid: minimum and maximum cell values (0 on an empty
grid, which the claims never exercise). -/
def gridMinMax (hw hh : ℤ) (f : ℤ → ℤ → ℚ) : ℚ × ℚ :=
  let vals := (gridCells hw hh).map fun c => f c.1 c.2
  (vals.foldl min (vals.headD 0), vals.foldl max (vals.headD 0))

/-- `generate_heatmap` from `heatmap.cpp` (lines 66-156).  External OpenCV
operations are parameters: `kernel` is the Gaussian kernel matrix of
`create_gaussian_kernel`, `cmap` the per-pixel colour-scheme map of
`apply_color_scheme` (modelled on the scalar 8-bit value), and `interp` the
`INTER_LINEAR` resize producing a `w × h` pixel grid from the accumulated
grid.  Control flow is embedded exactly: grid dimensions are
`(int)(width * resolution_factor) × (int)(height * resolution_factor)`; an
empty input returns that grid all-zero IMMEDIATELY (skipping normalization,
colouring and the resize-back); otherwise points are deposited, the grid is
min-max normalized to `[0, 255]` when its maximum is positive, rounded to
8-bit (the rounding of `convertTo`, modelled as round-and-saturate), coloured,
and resized back to `width × height` only when `resolution_factor ≠ 1`. -/
def generate_heatmap (kernel : ℤ → ℤ → ℚ) (cmap : ℚ → ℚ)
    (interp : (ℤ → ℤ → ℚ) → ℤ → ℤ → ℤ → ℤ → (ℤ → ℤ → ℚ))
    (pts : List GazePoint) (w h : ℤ) (cfg : HeatmapConfigQ) : QImage :=
  let hw := truncQ ((w : ℚ) * cfg.resolution_factor)
  let hh := truncQ ((h : ℚ) * cfg.resolution_factor)
  if pts = [] then { width := hw, height := hh, px := fun _ _ => 0 }
  else
    let field := pts.foldl
      (depositPoint kernel cfg.blur_radius hw hh cfg.intensity_multiplier)
      (fun _ _ => 0)
    let mm := gridMinMax hw hh field
    let normalized : ℤ → ℤ → ℚ :=
      if 0 < mm.2 then fun hx hy => (field hx hy - mm.1) / (mm.2 - mm.1) * 255
      else field
    let eightBit : ℤ → ℤ → ℚ :=
      fun hx hy => (min 255 (max 0 (round (normalized hx hy))) : ℤ)
    let colored : ℤ → ℤ → ℚ := fun hx hy => cmap (eightBit hx hy)
    if cfg.resolution_factor ≠ 1 then
      { width := w, height := h, px := interp colored hw hh w h }
    else
      { width := hw, height := hh, px := colored }

/-! ## Theorems -/

theorem clamp01_nonneg (v : ℚ) : 0 ≤ clamp01 v := le_max_left 0 _

theorem clamp01_le_one (v : ℚ) : clamp01 v ≤ 1 :=
  max_le (by norm_num) (min_le_left 1 v)

theorem rawGazeX_nonneg (cfg : GazeConfig) (eye : EyeDetectionResult) :
    0 ≤ rawGazeX cfg eye := clamp01_nonneg _

theorem rawGazeX_le_one (cfg : GazeConfig) (eye : EyeDetectionResult) :
    rawGazeX cfg eye ≤ 1 := clamp01_le_one _

theorem rawGazeY_nonneg (cfg : GazeConfig) (eye : EyeDetectionResult) :
    0 ≤ rawGazeY cfg eye := clamp01_nonneg _

theorem rawGazeY_le_one (cfg : GazeConfig) (eye : EyeDetectionResult) :
    rawGazeY cfg eye ≤ 1 := clamp01_le_one _

/-- A convex combination of two values of `[0,1]` with weight in `[0,1]` stays
in `[0,1]`. -/
theorem convex_mem_unit {α a b : ℚ} (hα0 : 0 ≤ α) (hα1 : α ≤ 1)
    (ha0 : 0 ≤ a) (ha1 : a ≤ 1) (hb0 : 0 ≤ b) (hb1 : b ≤ 1) :
    0 ≤ α * a + (1 - α) * b ∧ α * a + (1 - α) * b ≤ 1 := by
  constructor
  · have h1 : 0 ≤ α * a := mul_nonneg hα0 ha0
    have h2 : 0 ≤ (1 - α) * b := mul_nonneg (by linarith) hb0
    linarith
  · have h1 : α * a ≤ α * 1 := mul_le_mul_of_nonneg_left ha1 hα0
    have h2 : (1 - α) * b ≤ (1 - α) * 1 := mul_le_mul_of_nonneg_left hb1 (by linarith)
    linarith

/-- **C5** (confirmed).  Low-confidence estimates never replace the smoothing
anchor: for every configuration, every prior anchor state and every input,
if the point `calculate_gaze_direction` computes has confidence below the
minimum-confidence threshold, the anchor state after the call is unchanged
(lines 86-90 of `gaze_detection.cpp` guard the update by
`confidence >= min_confidence_threshold`; the invalid-input early return also
leaves it unchanged). -/
theorem calculate_gaze_low_confidence_preserves_anchor
    (cfg : GazeConfig) (st : AnchorState) (eye : EyeDetectionResult)
    (h : (calculate_gaze_direction cfg st eye).1.confidence <
         cfg.min_confidence_threshold) :
    (calculate_gaze_direction cfg st eye).2 = st := by
  by_cases hv : eye.valid
  · simp only [calculate_gaze_direction, hv, Bool.not_true, Bool.false_eq_true,
      if_false] at h ⊢
    exact if_neg (not_le.mpr h)
  · simp only [calculate_gaze_direction, hv, Bool.not_false, if_true]

/-- Witness for C5: a concrete valid detection whose four confidence fields
are all zero has computed confidence `0 < 0.7`, and the concrete anchor
survives unchanged. -/
theorem calculate_gaze_low_confidence_preserves_anchor_witness :
    (calculate_gaze_direction defaultGazeConfig ⟨⟨1/4, 1/3, 1, 0⟩, true⟩
      ⟨⟨0, 0, 10, 10, 0⟩, ⟨0, 0, 10, 10, 0⟩, ⟨5, 5, 2, 0⟩, ⟨5, 5, 2, 0⟩, true, 1⟩).2 =
      ⟨⟨1/4, 1/3, 1, 0⟩, true⟩ :=
  calculate_gaze_low_confidence_preserves_anchor _ _ _ (by
    norm_num [calculate_gaze_direction, defaultGazeConfig, gazeConfidence,
      baseConfidence, angleExceeds45, gazeDispX, gazeDispY, avgPupilX, avgPupilY,
      avgEyeX, avgEyeY])

/-- **C2** (corrected): counterexample to the claim as stated.  The claim
quantifies over EVERY input `EyeDetectionResult`; but
`calculate_gaze_direction` never clamps the confidence it computes (lines
68-77 of `gaze_detection.cpp` average the four input confidence fields and at
most halve the result), so an input whose confidence fields are `2` yields an
output confidence of `2 > 1`. -/
theorem calculate_gaze_confidence_not_clamped :
    ¬ ((calculate_gaze_direction defaultGazeConfig initialAnchor
        ⟨⟨0, 0, 10, 10, 2⟩, ⟨0, 0, 10, 10, 2⟩, ⟨5, 5, 2, 2⟩, ⟨5, 5, 2, 2⟩,
          true, 0⟩).1.confidence ≤ 1) := by
  norm_num [calculate_gaze_direction, defaultGazeConfig, initialAnchor,
    gazeConfidence, baseConfidence, angleExceeds45, gazeDispX, gazeDispY,
    avgPupilX, avgPupilY, avgEyeX, avgEyeY]

/-- **C2** (corrected): the amended claim.  For every configuration whose
smoothing factor lies in `[0,1]`, every input whose four confidence fields lie
in `[0,1]`, and every anchor state whose point (when the anchor is valid) has
coordinates in `[0,1]`, the produced `GazePoint` satisfies `x, y ∈ [0,1]` and
`confidence ∈ [0,1]`: coordinates are clamped (lines 64-66) before the convex
smoothing combination (lines 80-84), and the confidence is an average of
in-range values, possibly halved. -/
theorem calculate_gaze_output_in_unit_range
    (cfg : GazeConfig) (st : AnchorState) (eye : EyeDetectionResult)
    (hs0 : 0 ≤ cfg.smoothing_factor) (hs1 : cfg.smoothing_factor ≤ 1)
    (hle0 : 0 ≤ eye.left_eye.confidence) (hle1 : eye.left_eye.confidence ≤ 1)
    (hre0 : 0 ≤ eye.right_eye.confidence) (hre1 : eye.right_eye.confidence ≤ 1)
    (hlp0 : 0 ≤ eye.left_pupil.confidence) (hlp1 : eye.left_pupil.confidence ≤ 1)
    (hrp0 : 0 ≤ eye.right_pupil.confidence) (hrp1 : eye.right_pupil.confidence ≤ 1)
    (hanch : st.prev_gaze_valid = true →
      0 ≤ st.prev_gaze.x ∧ st.prev_gaze.x ≤ 1 ∧
      0 ≤ st.prev_gaze.y ∧ st.prev_gaze.y ≤ 1) :
    0 ≤ (calculate_gaze_direction cfg st eye).1.x ∧
      (calculate_gaze_direction cfg st eye).1.x ≤ 1 ∧
    0 ≤ (calculate_gaze_direction cfg st eye).1.y ∧
      (calculate_gaze_direction cfg st eye).1.y ≤ 1 ∧
    0 ≤ (calculate_gaze_direction cfg st eye).1.confidence ∧
      (calculate_gaze_direction cfg st eye).1.confidence ≤ 1 := by
  by_cases hv : eye.valid
  · simp only [calculate_gaze_direction, hv, Bool.not_true, Bool.false_eq_true,
      if_false]
    have hb0 : 0 ≤ baseConfidence eye := by unfold baseConfidence; linarith
    have hb1 : baseConfidence eye ≤ 1 := by unfold baseConfidence; linarith
    have hc0 : 0 ≤ gazeConfidence cfg eye := by
      unfold gazeConfidence; split <;> linarith
    have hc1 : gazeConfidence cfg eye ≤ 1 := by
      unfold gazeConfidence; split <;> linarith
    refine ⟨?_, ?_, ?_, ?_, ?_, ?_⟩
    · split
      · rename_i hsm
        rcases hanch hsm.1 with ⟨hx0, hx1, _, _⟩
        exact (convex_mem_unit hs0 hs1 hx0 hx1
          (rawGazeX_nonneg _ _) (rawGazeX_le_one _ _)).1
      · exact rawGazeX_nonneg _ _
    · split
      · rename_i hsm
        rcases hanch hsm.1 with ⟨hx0, hx1, _, _⟩
        exact (convex_mem_unit hs0 hs1 hx0 hx1
          (rawGazeX_nonneg _ _) (rawGazeX_le_one _ _)).2
      · exact rawGazeX_le_one _ _
    · split
      · rename_i hsm
        rcases hanch hsm.1 with ⟨_, _, hy0, hy1⟩
        exact (convex_mem_unit hs0 hs1 hy0 hy1
          (rawGazeY_nonneg _ _) (rawGazeY_le_one _ _)).1
      · exact rawGazeY_nonneg _ _
    · split
      · rename_i hsm
        rcases hanch hsm.1 with ⟨_, _, hy0, hy1⟩
        exact (convex_mem_unit hs0 hs1 hy0 hy1
          (rawGazeY_nonneg _ _) (rawGazeY_le_one _ _)).2
      · exact rawGazeY_le_one _ _
    · exact hc0
    · exact hc1
  · simp only [calculate_gaze_direction, hv, Bool.not_false, if_true]
    norm_num

/-- Witness for the amended C2: a concrete in-range input under the default
configuration and the initial (invalid) anchor yields in-range output. -/
theorem calculate_gaze_output_in_unit_range_witness :
    0 ≤ (calculate_gaze_direction defaultGazeConfig initialAnchor
      ⟨⟨0, 0, 10, 10, 9/10⟩, ⟨0, 0, 10, 10, 9/10⟩, ⟨6, 5, 2, 4/5⟩, ⟨6, 5, 2, 4/5⟩,
        true, 1⟩).1.x ∧
    (calculate_gaze_direction defaultGazeConfig initialAnchor
      ⟨⟨0, 0, 10, 10, 9/10⟩, ⟨0, 0, 10, 10, 9/10⟩, ⟨6, 5, 2, 4/5⟩, ⟨6, 5, 2, 4/5⟩,
        true, 1⟩).1.x ≤ 1 ∧
    0 ≤ (calculate_gaze_direction defaultGazeConfig initialAnchor
      ⟨⟨0, 0, 10, 10, 9/10⟩, ⟨0, 0, 10, 10, 9/10⟩, ⟨6, 5, 2, 4/5⟩, ⟨6, 5, 2, 4/5⟩,
        true, 1⟩).1.y ∧
    (calculate_gaze_direction defaultGazeConfig initialAnchor
      ⟨⟨0, 0, 10, 10, 9/10⟩, ⟨0, 0, 10, 10, 9/10⟩, ⟨6, 5, 2, 4/5⟩, ⟨6, 5, 2, 4/5⟩,
        true, 1⟩).1.y ≤ 1 ∧
    0 ≤ (calculate_gaze_direction defaultGazeConfig initialAnchor
      ⟨⟨0, 0, 10, 10, 9/10⟩, ⟨0, 0, 10, 10, 9/10⟩, ⟨6, 5, 2, 4/5⟩, ⟨6, 5, 2, 4/5⟩,
        true, 1⟩).1.confidence ∧
    (calculate_gaze_direction defaultGazeConfig initialAnchor
      ⟨⟨0, 0, 10, 10, 9/10⟩, ⟨0, 0, 10, 10, 9/10⟩, ⟨6, 5, 2, 4/5⟩, ⟨6, 5, 2, 4/5⟩,
        true, 1⟩).1.confidence ≤ 1 :=
  calculate_gaze_output_in_unit_range _ _ _
    (by norm_num [defaultGazeConfig]) (by norm_num [defaultGazeConfig])
    (by norm_num) (by norm_num) (by norm_num) (by norm_num)
    (by norm_num) (by norm_num) (by norm_num) (by norm_num)
    (by norm_num [initialAnchor])

/-- **C4** (corrected): counterexample to the claim as stated.  The claim
quantifies over EVERY incoming `EyeDetectionResult`, but
`process_realtime_frame` (lines 291-301 of `advanced_features.cpp`) only calls
the estimator and appends when `eye_result.valid`: an invalid detection leaves
the rolling buffer unchanged (here: still empty rather than of length 1). -/
theorem process_realtime_frame_skips_invalid :
    ¬ ((process_realtime_frame defaultGazeConfig
          (init_realtime_processing initialPipeline)
          ⟨⟨0, 0, 10, 10, 1⟩, ⟨0, 0, 10, 10, 1⟩, ⟨5, 5, 2, 1⟩, ⟨5, 5, 2, 1⟩,
            false, 1⟩).2.rt.recent_gaze_points.length =
        (init_realtime_processing
          initialPipeline).rt.recent_gaze_points.length + 1) := by
  simp [process_realtime_frame, init_realtime_processing, initialPipeline]

/-- **C4** (corrected): the amended claim.  For every VALID incoming
`EyeDetectionResult` in an initialized session whose buffer respects its
capacity (the code keeps `max_history_size = 100 > 0` and the invariant always
holds), `process_realtime_frame` returns exactly the Gaze Estimator's output,
threads the estimator's anchor update, appends the produced point to the
rolling buffer, and evicts exactly the oldest entry when the buffer was
already at capacity. -/
theorem process_realtime_frame_valid_appends
    (cfg : GazeConfig) (st : PipelineState) (eye : EyeDetectionResult)
    (hinit : st.rt.is_initialized = true) (hvalid : eye.valid = true)
    (hcap : 0 < st.rt.max_history_size)
    (hlen : st.rt.recent_gaze_points.length ≤ st.rt.max_history_size) :
    (process_realtime_frame cfg st eye).1 =
      (calculate_gaze_direction cfg st.anchor eye).1 ∧
    (process_realtime_frame cfg st eye).2.anchor =
      (calculate_gaze_direction cfg st.anchor eye).2 ∧
    (process_realtime_frame cfg st eye).2.rt.recent_gaze_points =
      (if st.rt.recent_gaze_points.length < st.rt.max_history_size then
        st.rt.recent_gaze_points ++
          [(calculate_gaze_direction cfg st.anchor eye).1]
      else
        st.rt.recent_gaze_points.drop 1 ++
          [(calculate_gaze_direction cfg st.anchor eye).1]) := by
  simp only [process_realtime_frame, hinit, hvalid, Bool.not_true,
    Bool.false_eq_true, if_false, if_true]
  refine ⟨trivial, trivial, ?_⟩
  simp only [List.length_append, List.length_singleton]
  by_cases hlt : st.rt.recent_gaze_points.length < st.rt.max_history_size
  · rw [if_neg (by omega), if_pos hlt]
  · rw [if_pos (by omega), if_neg hlt,
      List.drop_append_of_le_length (by omega)]

/-- Witness for the amended C4: ingesting one concrete valid detection into a
freshly initialized session appends exactly the estimator's output. -/
theorem process_realtime_frame_valid_appends_witness :
    (process_realtime_frame defaultGazeConfig
        ⟨initialAnchor, ⟨true, [], 100⟩⟩
        ⟨⟨0, 0, 10, 10, 1⟩, ⟨0, 0, 10, 10, 1⟩, ⟨5, 5, 2, 1⟩, ⟨5, 5, 2, 1⟩,
          true, 1⟩).2.rt.recent_gaze_points =
      [(calculate_gaze_direction defaultGazeConfig initialAnchor
          ⟨⟨0, 0, 10, 10, 1⟩, ⟨0, 0, 10, 10, 1⟩, ⟨5, 5, 2, 1⟩, ⟨5, 5, 2, 1⟩,
            true, 1⟩).1] := by
  have h := process_realtime_frame_valid_appends defaultGazeConfig
    ⟨initialAnchor, ⟨true, [], 100⟩⟩
    ⟨⟨0, 0, 10, 10, 1⟩, ⟨0, 0, 10, 10, 1⟩, ⟨5, 5, 2, 1⟩, ⟨5, 5, 2, 1⟩, true, 1⟩
    rfl rfl (by norm_num) (by norm_num)
  simpa using h.2.2

/-- **C1** (code_bug).  `cleanup_realtime_processing` and
`init_realtime_processing` clear the rolling buffer but neither resets the
smoothing-anchor globals `prev_gaze`/`prev_gaze_valid` of
`gaze_detection.cpp`, so a stop()-then-start() pipeline is NOT behaviorally
identical to a fresh one: after a first session has accepted a
high-confidence point, the restarted session smooths its first point against
the dead session's anchor.  Concretely: session 1 accepts a centred detection
(gaze `(0.5, 0.5)`, confidence 1); after stop/start, the same displaced
detection that a fresh pipeline maps to `x = 0.58` is instead smoothed to
`x = 0.3·0.5 + 0.7·0.58 = 0.556`. -/
theorem restart_differs_from_fresh_pipeline :
    (process_realtime_frame defaultGazeConfig
        (init_realtime_processing
          (cleanup_realtime_processing
            ((process_realtime_frame defaultGazeConfig
                (init_realtime_processing initialPipeline)
                ⟨⟨0, 0, 10, 10, 1⟩, ⟨0, 0, 10, 10, 1⟩, ⟨5, 5, 2, 1⟩,
                  ⟨5, 5, 2, 1⟩, true, 1⟩).2)))
        ⟨⟨0, 0, 10, 10, 1⟩, ⟨0, 0, 10, 10, 1⟩, ⟨105, 5, 2, 1⟩,
          ⟨105, 5, 2, 1⟩, true, 2⟩).1 ≠
    (process_realtime_frame defaultGazeConfig
        (init_realtime_processing initialPipeline)
        ⟨⟨0, 0, 10, 10, 1⟩, ⟨0, 0, 10, 10, 1⟩, ⟨105, 5, 2, 1⟩,
          ⟨105, 5, 2, 1⟩, true, 2⟩).1 := by
  simp [process_realtime_frame, init_realtime_processing,
    cleanup_realtime_processing, calculate_gaze_direction, defaultGazeConfig,
    initialAnchor, initialPipeline, gazeConfidence, baseConfidence,
    angleExceeds45, gazeDispX, gazeDispY, avgPupilX, avgPupilY, avgEyeX,
    avgEyeY, rawGazeX, rawGazeY, clamp01, zeroGaze, GazePoint.mk.injEq]
  norm_num

/-- Auxiliary: with enough fuel, the greedy run decomposition concatenates
back to the input and contains no empty run. -/
theorem fixChunksF_join (cfg : FixationConfig) :
    ∀ (fuel : ℕ) (pts : List GazePoint), pts.length ≤ fuel →
      (fixChunksF cfg fuel pts).flatten = pts ∧
      ∀ c ∈ fixChunksF cfg fuel pts, c ≠ [] := by
  intro fuel
  induction fuel with
  | zero =>
      intro pts h
      have hnil : pts = [] := List.eq_nil_of_length_eq_zero (Nat.le_zero.mp h)
      subst hnil
      simp [fixChunksF]
  | succ n ih =>
      intro pts h
      cases pts with
      | nil => simp [fixChunksF]
      | cons p rest =>
          have hlen : (rest.dropWhile (withinFix cfg p)).length ≤ n := by
            have hd := (rest.dropWhile_sublist (withinFix cfg p)).length_le
            simp only [List.length_cons] at h
            omega
          obtain ⟨hj, hne⟩ := ih _ hlen
          constructor
          · simp only [fixChunksF, List.flatten_cons, hj, List.cons_append,
              List.takeWhile_append_dropWhile]
          · intro c hc
            simp only [fixChunksF, List.mem_cons] at hc
            rcases hc with rfl | hc
            · simp
            · exact hne c hc

/-- **C6** (confirmed).  The runs scanned by `detect_fixations` are
non-overlapping contiguous segments covering the input in order:
concatenating the runs of the greedy decomposition `fixChunks` (the exact
run structure of `detect_fixations`'s while-loop) reconstructs the input
sequence exactly once, and every run is nonempty, so each input position
belongs to exactly one run. -/
theorem fixation_runs_partition (cfg : FixationConfig) (pts : List GazePoint) :
    (fixChunks cfg pts).flatten = pts ∧ ∀ c ∈ fixChunks cfg pts, c ≠ [] :=
  fixChunksF_join cfg pts.length pts le_rfl

/-- Witness for C6 at a concrete three-point input. -/
theorem fixation_runs_partition_witness :
    (fixChunks defaultFixationConfig
        [⟨1/2, 1/2, 1, 0⟩, ⟨1/2, 1/2, 1, 1/10⟩, ⟨9/10, 9/10, 1, 1/5⟩]).flatten =
      [⟨1/2, 1/2, 1, 0⟩, ⟨1/2, 1/2, 1, 1/10⟩, ⟨9/10, 9/10, 1, 1/5⟩] :=
  (fixation_runs_partition defaultFixationConfig
    [⟨1/2, 1/2, 1, 0⟩, ⟨1/2, 1/2, 1, 1/10⟩, ⟨9/10, 9/10, 1, 1/5⟩]).1

/-- **C8** (confirmed).  The minimum-duration boundary of `detect_fixations`
is inclusive (line 141: `duration >= min_duration_ms`): a multi-point run
whose duration equals the configured minimum is emitted as an
`AttentionRegion`, while one whose duration is one millisecond below is not. -/
theorem fixation_min_duration_boundary (sq : ℚ → ℚ) (cfg : FixationConfig)
    (pts : List GazePoint) (hrun : fixChunks cfg pts = [pts])
    (hlen : 2 ≤ pts.length) :
    (runDuration pts = cfg.min_duration_ms →
      detect_fixations sq cfg pts = [regionOfRun sq pts]) ∧
    (runDuration pts = cfg.min_duration_ms - 1 →
      detect_fixations sq cfg pts = []) := by
  constructor
  · intro hd
    simp [detect_fixations, hrun, hd, hlen]
  · intro hd
    have hlt : ¬ cfg.min_duration_ms ≤ runDuration pts := by
      rw [hd]
      intro hcon
      linarith
    simp [detect_fixations, hrun, hlt]

/-- Witness for C8: two concrete two-point runs under the default
configuration (minimum duration 100 ms); timestamps 0 and 0.1 s give duration
exactly 100 ms (emitted), timestamps 0 and 0.099 s give 99 ms (dropped). -/
theorem fixation_min_duration_boundary_witness :
    detect_fixations id defaultFixationConfig
        [⟨1/2, 1/2, 1, 0⟩, ⟨1/2, 1/2, 1, 1/10⟩] =
      [regionOfRun id [⟨1/2, 1/2, 1, 0⟩, ⟨1/2, 1/2, 1, 1/10⟩]] ∧
    detect_fixations id defaultFixationConfig
        [⟨1/2, 1/2, 1, 0⟩, ⟨1/2, 1/2, 1, 99/1000⟩] = [] := by
  constructor
  · exact (fixation_min_duration_boundary id defaultFixationConfig
      [⟨1/2, 1/2, 1, 0⟩, ⟨1/2, 1/2, 1, 1/10⟩]
      (by norm_num [fixChunks, fixChunksF, withinFix, distSq,
        defaultFixationConfig])
      (by norm_num)).1
      (by norm_num [runDuration, defaultFixationConfig])
  · exact (fixation_min_duration_boundary id defaultFixationConfig
      [⟨1/2, 1/2, 1, 0⟩, ⟨1/2, 1/2, 1, 99/1000⟩]
      (by norm_num [fixChunks, fixChunksF, withinFix, distSq,
        defaultFixationConfig])
      (by norm_num)).2
      (by norm_num [runDuration, defaultFixationConfig])

/-- The Boolean triple test of the code decides exactly the claim's
criterion: `saccadeFlag` is true iff both elapsed times are positive and one
of the velocity/acceleration criteria fires. -/
theorem saccadeFlag_iff_spec (cfg : SaccadeConfig) (p c n : GazePoint) :
    saccadeFlag cfg p c n = true ↔ saccadeSpec cfg p c n := by
  simp only [saccadeFlag, saccadeSpec]
  split
  · rename_i hle
    simp only [Bool.false_eq_true, false_iff]
    rintro ⟨h1, h2, _⟩
    rcases hle with h | h <;> linarith
  · rename_i hgt
    push_neg at hgt
    rw [decide_eq_true_iff]
    constructor
    · intro h
      exact ⟨hgt.1, hgt.2, h⟩
    · intro h
      exact h.2.2

/-- Membership in the sliding-window scan: index `j` is collected from a scan
of `l` starting at absolute index `i` exactly when `j` names an interior
point of `l` (relative offset `k + 1` for some window at offset `k`) whose
triple passes the test. -/
theorem saccadeScan_mem (cfg : SaccadeConfig) :
    ∀ (l : List GazePoint) (i j : ℕ),
      j ∈ saccadeScan cfg i l ↔
        ∃ k, j = i + k + 1 ∧ k + 2 < l.length ∧
          saccadeFlag cfg (l.getD k default) (l.getD (k + 1) default)
            (l.getD (k + 2) default) = true := by
  intro l
  induction l with
  | nil => intro i j; simp [saccadeScan]
  | cons p rest ih =>
      cases rest with
      | nil => intro i j; simp [saccadeScan]
      | cons c rest2 =>
          cases rest2 with
          | nil => intro i j; simp [saccadeScan]
          | cons n rest3 =>
              intro i j
              rw [saccadeScan]
              simp only [List.mem_append]
              rw [ih (i + 1) j]
              constructor
              · rintro (hmem | ⟨k, rfl, hk, hf⟩)
                · split at hmem
                  · rename_i hflag
                    simp only [List.mem_singleton] at hmem
                    subst hmem
                    exact ⟨0, by omega, by simp, by simpa using hflag⟩
                  · simp at hmem
                · refine ⟨k + 1, by omega, ?_, ?_⟩
                  · simp only [List.length_cons] at hk ⊢
                    omega
                  · simpa [List.getD_cons_succ] using hf
              · rintro ⟨k, rfl, hk, hf⟩
                cases k with
                | zero =>
                    left
                    simp only [List.getD_cons_zero, List.getD_cons_succ] at hf
                    rw [if_pos hf]
                    simp
                | succ k2 =>
                    right
                    refine ⟨k2, by omega, ?_, ?_⟩
                    · simp only [List.length_cons] at hk ⊢
                      omega
                    · simpa [List.getD_cons_succ] using hf

/-- **C7** (confirmed).  `detect_saccades` on fewer than 3 points returns the
empty list; and for every input it flags an index `i` exactly when `i` is
interior (`1 ≤ i` and `i + 1 < length`) and the triple `(i-1, i, i+1)`
satisfies the claim's criterion: both elapsed times positive, and incoming
velocity over the threshold OR outgoing velocity over the threshold OR
acceleration over the threshold (an OR, not an AND); triples with
non-positive elapsed time are skipped because `saccadeSpec` then fails. -/
theorem detect_saccades_characterization (cfg : SaccadeConfig)
    (pts : List GazePoint) :
    (pts.length < 3 → detect_saccades cfg pts = []) ∧
    ∀ i, i ∈ detect_saccades cfg pts ↔
      (1 ≤ i ∧ i + 1 < pts.length ∧
       saccadeSpec cfg (pts.getD (i - 1) default) (pts.getD i default)
         (pts.getD (i + 1) default)) := by
  constructor
  · intro h
    simp [detect_saccades, h]
  · intro i
    by_cases h3 : pts.length < 3
    · simp only [detect_saccades, if_pos h3, List.not_mem_nil, false_iff]
      rintro ⟨h1, h2, _⟩
      omega
    · rw [detect_saccades, if_neg h3, saccadeScan_mem cfg pts 0 i]
      constructor
      · rintro ⟨k, rfl, hk, hf⟩
        rw [saccadeFlag_iff_spec] at hf
        simp only [Nat.zero_add] at *
        refine ⟨by omega, by omega, ?_⟩
        simpa [Nat.add_sub_cancel] using hf
      · rintro ⟨h1, h2, hspec⟩
        refine ⟨i - 1, by omega, by omega, ?_⟩
        rw [saccadeFlag_iff_spec]
        have e1 : i - 1 + 1 = i := by omega
        have e2 : i - 1 + 2 = i + 1 := by omega
        rw [e1, e2]
        exact hspec

/-- Witness for C7: a concrete fast three-point trajectory (1 normalized unit
in 1 ms on each segment, velocity 1000 > 300) has its interior index 1
flagged. -/
theorem detect_saccades_characterization_witness :
    1 ∈ detect_saccades defaultSaccadeConfig
      [⟨0, 0, 1, 0⟩, ⟨1, 0, 1, 1/1000⟩, ⟨1, 1, 1, 2/1000⟩] :=
  ((detect_saccades_characterization defaultSaccadeConfig
    [⟨0, 0, 1, 0⟩, ⟨1, 0, 1, 1/1000⟩, ⟨1, 1, 1, 2/1000⟩]).2 1).mpr
    ⟨by norm_num, by norm_num,
      by norm_num [saccadeSpec, distSq, defaultSaccadeConfig]⟩

theorem gazeOutputs_length (cfg : GazeConfig) :
    ∀ (eyes : List EyeDetectionResult) (anch : AnchorState),
      (gazeOutputs cfg anch eyes).length = eyes.length := by
  intro eyes
  induction eyes with
  | nil => intro anch; simp [gazeOutputs]
  | cons e es ih => intro anch; simp [gazeOutputs, ih]

/-- One valid ingest step, with the state in literal form: the estimator's
anchor update is threaded and the buffer is appended-then-evicted. -/
theorem process_realtime_frame_valid_state (cfg : GazeConfig)
    (anch : AnchorState) (buf : List GazePoint) (cap : ℕ)
    (e : EyeDetectionResult) (he : e.valid = true) :
    (process_realtime_frame cfg ⟨anch, ⟨true, buf, cap⟩⟩ e).2 =
      ⟨(calculate_gaze_direction cfg anch e).2,
       ⟨true,
        if cap < (buf ++ [(calculate_gaze_direction cfg anch e).1]).length
        then (buf ++ [(calculate_gaze_direction cfg anch e).1]).drop 1
        else buf ++ [(calculate_gaze_direction cfg anch e).1],
        cap⟩⟩ := by
  simp [process_realtime_frame, he]

/-- Auxiliary induction for C9: from any initialized state whose buffer
respects the capacity, ingesting any all-valid detection sequence leaves the
buffer equal to the last `cap` entries of the old buffer followed by the
estimator's outputs. -/
theorem ingestAll_buffer (cfg : GazeConfig) :
    ∀ (eyes : List EyeDetectionResult) (anch : AnchorState)
      (buf : List GazePoint) (cap : ℕ),
      buf.length ≤ cap → (∀ e ∈ eyes, e.valid = true) →
      (ingestAll cfg ⟨anch, ⟨true, buf, cap⟩⟩ eyes).rt.recent_gaze_points =
        (buf ++ gazeOutputs cfg anch eyes).drop
          ((buf.length + eyes.length) - cap) := by
  intro eyes
  induction eyes with
  | nil =>
      intro anch buf cap hle _
      simp [ingestAll, gazeOutputs, Nat.sub_eq_zero_of_le hle]
  | cons e es ih =>
      intro anch buf cap hle hv
      have hev : e.valid = true := hv e (List.mem_cons_self e es)
      have hvs : ∀ x ∈ es, x.valid = true :=
        fun x hx => hv x (List.mem_cons_of_mem e hx)
      have hstep : ingestAll cfg ⟨anch, ⟨true, buf, cap⟩⟩ (e :: es) =
          ingestAll cfg
            (process_realtime_frame cfg ⟨anch, ⟨true, buf, cap⟩⟩ e).2 es := rfl
      rw [hstep, process_realtime_frame_valid_state cfg anch buf cap e hev]
      by_cases hcap :
          cap < (buf ++ [(calculate_gaze_direction cfg anch e).1]).length
      · rw [if_pos hcap]
        have hcl : buf.length = cap := by
          simp only [List.length_append, List.length_singleton] at hcap
          omega
        have hlen1 :
            ((buf ++ [(calculate_gaze_direction cfg anch e).1]).drop 1).length
              ≤ cap := by
          simp only [List.length_drop, List.length_append,
            List.length_singleton]
          omega
        rw [ih _ _ _ hlen1 hvs]
        rw [← List.drop_append_of_le_length
          (by simp only [List.length_append, List.length_singleton]; omega)]
        rw [List.drop_drop]
        have harr : (buf ++ [(calculate_gaze_direction cfg anch e).1]) ++
            gazeOutputs cfg (calculate_gaze_direction cfg anch e).2 es =
            buf ++ gazeOutputs cfg anch (e :: es) := by
          rw [List.append_assoc]
          rfl
        rw [harr]
        congr 1
        simp only [List.length_drop, List.length_append, List.length_singleton,
          List.length_cons, List.length_nil]
        omega
      · rw [if_neg hcap]
        have hlen1 :
            (buf ++ [(calculate_gaze_direction cfg anch e).1]).length ≤ cap := by
          omega
        rw [ih _ _ _ hlen1 hvs]
        have harr : (buf ++ [(calculate_gaze_direction cfg anch e).1]) ++
            gazeOutputs cfg (calculate_gaze_direction cfg anch e).2 es =
            buf ++ gazeOutputs cfg anch (e :: es) := by
          rw [List.append_assoc]
          rfl
        rw [harr]
        congr 1
        simp only [List.length_append, List.length_singleton, List.length_cons,
          List.length_nil]
        omega

/-- **C9** (confirmed).  From any initialized session whose rolling buffer
respects its capacity, after ingesting any all-valid detection sequence the
snapshot `get_realtime_history` returns exactly the trailing `capacity`
entries — old buffer followed by the estimator outputs in original relative
order, with the strictly oldest entries evicted — and its length never
exceeds the capacity.  In particular from an empty buffer (`buf = []`,
e.g. capacity 3 with 5 ingests), the snapshot is exactly the last `capacity`
produced points. -/
theorem rolling_buffer_capacity_and_eviction (cfg : GazeConfig)
    (anch : AnchorState) (buf : List GazePoint) (cap : ℕ)
    (eyes : List EyeDetectionResult)
    (hle : buf.length ≤ cap) (hvalid : ∀ e ∈ eyes, e.valid = true) :
    get_realtime_history (ingestAll cfg ⟨anch, ⟨true, buf, cap⟩⟩ eyes) =
      (buf ++ gazeOutputs cfg anch eyes).drop
        ((buf.length + eyes.length) - cap) ∧
    (get_realtime_history (ingestAll cfg ⟨anch, ⟨true, buf, cap⟩⟩ eyes)).length
      ≤ cap := by
  have h := ingestAll_buffer cfg eyes anch buf cap hle hvalid
  constructor
  · simpa only [get_realtime_history] using h
  · simp only [get_realtime_history, h, List.length_drop, List.length_append,
      gazeOutputs_length]
    omega

/-- Witness for C9, the spec's Example 3: capacity 3, five valid ingests from
an empty buffer leave exactly the last three produced points (`drop 2` of the
five outputs), and the snapshot length is at most 3. -/
theorem rolling_buffer_capacity_and_eviction_witness :
    get_realtime_history (ingestAll defaultGazeConfig
        ⟨initialAnchor, ⟨true, [], 3⟩⟩
        [⟨⟨0, 0, 10, 10, 1⟩, ⟨0, 0, 10, 10, 1⟩, ⟨5, 5, 2, 1⟩, ⟨5, 5, 2, 1⟩, true, 1⟩,
         ⟨⟨0, 0, 10, 10, 1⟩, ⟨0, 0, 10, 10, 1⟩, ⟨5, 5, 2, 1⟩, ⟨5, 5, 2, 1⟩, true, 2⟩,
         ⟨⟨0, 0, 10, 10, 1⟩, ⟨0, 0, 10, 10, 1⟩, ⟨5, 5, 2, 1⟩, ⟨5, 5, 2, 1⟩, true, 3⟩,
         ⟨⟨0, 0, 10, 10, 1⟩, ⟨0, 0, 10, 10, 1⟩, ⟨5, 5, 2, 1⟩, ⟨5, 5, 2, 1⟩, true, 4⟩,
         ⟨⟨0, 0, 10, 10, 1⟩, ⟨0, 0, 10, 10, 1⟩, ⟨5, 5, 2, 1⟩, ⟨5, 5, 2, 1⟩, true, 5⟩]) =
      (gazeOutputs defaultGazeConfig initialAnchor
        [⟨⟨0, 0, 10, 10, 1⟩, ⟨0, 0, 10, 10, 1⟩, ⟨5, 5, 2, 1⟩, ⟨5, 5, 2, 1⟩, true, 1⟩,
         ⟨⟨0, 0, 10, 10, 1⟩, ⟨0, 0, 10, 10, 1⟩, ⟨5, 5, 2, 1⟩, ⟨5, 5, 2, 1⟩, true, 2⟩,
         ⟨⟨0, 0, 10, 10, 1⟩, ⟨0, 0, 10, 10, 1⟩, ⟨5, 5, 2, 1⟩, ⟨5, 5, 2, 1⟩, true, 3⟩,
         ⟨⟨0, 0, 10, 10, 1⟩, ⟨0, 0, 10, 10, 1⟩, ⟨5, 5, 2, 1⟩, ⟨5, 5, 2, 1⟩, true, 4⟩,
         ⟨⟨0, 0, 10, 10, 1⟩, ⟨0, 0, 10, 10, 1⟩, ⟨5, 5, 2, 1⟩, ⟨5, 5, 2, 1⟩, true, 5⟩]).drop 2 ∧
    (get_realtime_history (ingestAll defaultGazeConfig
        ⟨initialAnchor, ⟨true, [], 3⟩⟩
        [⟨⟨0, 0, 10, 10, 1⟩, ⟨0, 0, 10, 10, 1⟩, ⟨5, 5, 2, 1⟩, ⟨5, 5, 2, 1⟩, true, 1⟩,
         ⟨⟨0, 0, 10, 10, 1⟩, ⟨0, 0, 10, 10, 1⟩, ⟨5, 5, 2, 1⟩, ⟨5, 5, 2, 1⟩, true, 2⟩,
         ⟨⟨0, 0, 10, 10, 1⟩, ⟨0, 0, 10, 10, 1⟩, ⟨5, 5, 2, 1⟩, ⟨5, 5, 2, 1⟩, true, 3⟩,
         ⟨⟨0, 0, 10, 10, 1⟩, ⟨0, 0, 10, 10, 1⟩, ⟨5, 5, 2, 1⟩, ⟨5, 5, 2, 1⟩, true, 4⟩,
         ⟨⟨0, 0, 10, 10, 1⟩, ⟨0, 0, 10, 10, 1⟩, ⟨5, 5, 2, 1⟩, ⟨5, 5, 2, 1⟩, true, 5⟩])).length
      ≤ 3 := by
  have h := rolling_buffer_capacity_and_eviction defaultGazeConfig
    initialAnchor [] 3
    [⟨⟨0, 0, 10, 10, 1⟩, ⟨0, 0, 10, 10, 1⟩, ⟨5, 5, 2, 1⟩, ⟨5, 5, 2, 1⟩, true, 1⟩,
     ⟨⟨0, 0, 10, 10, 1⟩, ⟨0, 0, 10, 10, 1⟩, ⟨5, 5, 2, 1⟩, ⟨5, 5, 2, 1⟩, true, 2⟩,
     ⟨⟨0, 0, 10, 10, 1⟩, ⟨0, 0, 10, 10, 1⟩, ⟨5, 5, 2, 1⟩, ⟨5, 5, 2, 1⟩, true, 3⟩,
     ⟨⟨0, 0, 10, 10, 1⟩, ⟨0, 0, 10, 10, 1⟩, ⟨5, 5, 2, 1⟩, ⟨5, 5, 2, 1⟩, true, 4⟩,
     ⟨⟨0, 0, 10, 10, 1⟩, ⟨0, 0, 10, 10, 1⟩, ⟨5, 5, 2, 1⟩, ⟨5, 5, 2, 1⟩, true, 5⟩]
    (by norm_num)
    (by intro e he; simp only [List.mem_cons, List.not_mem_nil, or_false] at he
        rcases he with rfl | rfl | rfl | rfl | rfl <;> rfl)
  simpa using h

theorem truncQ_one_mul_int (w : ℤ) (hw : 0 ≤ w) : truncQ ((1 : ℚ) * w) = w := by
  rw [one_mul, truncQ, if_pos (by exact_mod_cast hw)]
  exact Int.floor_intCast w

/-- **C10** (confirmed).  In the default density mode, a gaze point whose
normalized `x` equals exactly `1.0` (a value the estimator's clamping can
produce) maps to cell index `heatmap_width` (`(int)(1.0 * heatmap_width)`),
fails the bounds check `x < heatmap_width` of `heatmap.cpp` lines 103-109,
and is skipped entirely — even at full confidence it contributes nothing to
the density field; symmetrically for `y = 1.0` and `heatmap_height`. -/
theorem heatmap_boundary_point_skipped (kernel : ℤ → ℤ → ℚ) (r hw hh : ℤ)
    (im : ℚ) (field : ℤ → ℤ → ℚ) (p : GazePoint)
    (hconf : p.confidence = 1) (hw0 : 0 < hw) (hh0 : 0 < hh) :
    (p.x = 1 → truncQ (p.x * hw) = hw ∧
      depositPoint kernel r hw hh im field p = field) ∧
    (p.y = 1 → truncQ (p.y * hh) = hh ∧
      depositPoint kernel r hw hh im field p = field) := by
  have hnc : ¬ p.confidence < 1/2 := by rw [hconf]; norm_num
  constructor
  · intro hx
    have h1 : truncQ (p.x * hw) = hw := by rw [hx]; exact truncQ_one_mul_int hw hw0.le
    refine ⟨h1, ?_⟩
    rw [depositPoint, if_neg hnc]
    exact if_pos (Or.inr (Or.inl h1.ge))
  · intro hy
    have h1 : truncQ (p.y * hh) = hh := by rw [hy]; exact truncQ_one_mul_int hh hh0.le
    refine ⟨h1, ?_⟩
    rw [depositPoint, if_neg hnc]
    exact if_pos (Or.inr (Or.inr (Or.inr h1.ge)))

/-- Witness for C10: the clamped full-confidence point `(1, 1/2)` on a
100×100 grid is skipped, leaving any field unchanged. -/
theorem heatmap_boundary_point_skipped_witness :
    truncQ ((⟨1, 1/2, 1, 0⟩ : GazePoint).x * 100) = 100 ∧
    depositPoint (fun _ _ => 1) 15 100 100 1 (fun _ _ => 0)
      ⟨1, 1/2, 1, 0⟩ = (fun _ _ => 0) :=
  (heatmap_boundary_point_skipped (fun _ _ => 1) 15 100 100 1 (fun _ _ => 0)
    ⟨1, 1/2, 1, 0⟩ rfl (by norm_num) (by norm_num)).1 rfl

/-- **C3** (code_bug).  On an empty gaze-point list `generate_heatmap` returns
early (lines 72-77 of `heatmap.cpp`) with the all-zero GRID-sized image
`(int)(width*resolution_factor) × (int)(height*resolution_factor)`, skipping
the resize-back step of lines 149-153 — so for any resolution factor other
than 1 the dimensions are NOT the requested `width × height`: requesting
100×50 at factor 2 yields a valid all-zero 200×100 image. -/
theorem generate_heatmap_empty_skips_resize :
    (∀ (kernel : ℤ → ℤ → ℚ) (cmap : ℚ → ℚ)
       (interp : (ℤ → ℤ → ℚ) → ℤ → ℤ → ℤ → ℤ → (ℤ → ℤ → ℚ))
       (w h : ℤ) (cfg : HeatmapConfigQ),
       generate_heatmap kernel cmap interp [] w h cfg =
         ⟨truncQ ((w : ℚ) * cfg.resolution_factor),
          truncQ ((h : ℚ) * cfg.resolution_factor), fun _ _ => 0⟩) ∧
    ((generate_heatmap (fun _ _ => 0) id (fun g _ _ _ _ => g) [] 100 50
        { defaultHeatmapConfig with resolution_factor := 2 }).width = 200 ∧
     (generate_heatmap (fun _ _ => 0) id (fun g _ _ _ _ => g) [] 100 50
        { defaultHeatmapConfig with resolution_factor := 2 }).height = 100 ∧
     (∀ x y, (generate_heatmap (fun _ _ => 0) id (fun g _ _ _ _ => g) [] 100 50
        { defaultHeatmapConfig with resolution_factor := 2 }).px x y = 0) ∧
     ¬ ((generate_heatmap (fun _ _ => 0) id (fun g _ _ _ _ => g) [] 100 50
          { defaultHeatmapConfig with resolution_factor := 2 }).width = 100 ∧
        (generate_heatmap (fun _ _ => 0) id (fun g _ _ _ _ => g) [] 100 50
          { defaultHeatmapConfig with resolution_factor := 2 }).height = 50)) := by
  have hgen : ∀ (kernel : ℤ → ℤ → ℚ) (cmap : ℚ → ℚ)
      (interp : (ℤ → ℤ → ℚ) → ℤ → ℤ → ℤ → ℤ → (ℤ → ℤ → ℚ))
      (w h : ℤ) (cfg : HeatmapConfigQ),
      generate_heatmap kernel cmap interp [] w h cfg =
        ⟨truncQ ((w : ℚ) * cfg.resolution_factor),
         truncQ ((h : ℚ) * cfg.resolution_factor), fun _ _ => 0⟩ := by
    intro kernel cmap interp w h cfg
    rw [generate_heatmap, if_pos rfl]
  refine ⟨hgen, ?_, ?_, ?_, ?_⟩
  · rw [hgen]
    norm_num [truncQ, defaultHeatmapConfig]
  · rw [hgen]
    norm_num [truncQ, defaultHeatmapConfig]
  · intro x y
    rw [hgen]
  · rw [hgen]
    norm_num [truncQ, defaultHeatmapConfig]

end Cor
